import Mathlib

/-!
Verification of the chat-room backend (choffmann/chat-room, Go).

This file gives a shallow embedding of the parts of the program that the
claims are about: the per-room engine loop (`run`), the inactivity watcher
(`deleteRoomWithNoActivity`), the client read pump payload construction and
its JSON serialization, the hub room listing (`GetAllRoomIDs`), and the
build-info HTTP handler (`getInfoHandler`).

Conventions of the embedding:
- A Go channel-driven event loop becomes a step function on an explicit
  state; which select branch fires in an iteration is the chosen event.
- The Go map `map[*Client]bool` together with each client pointer and its
  buffered `send` channel becomes an association list from a client
  identifier to the list of bytes payloads currently buffered in its queue.
- `close(c.send)` is recorded by appending the client identifier to a close
  log; a second close of the same channel (a Go runtime panic) shows up as
  the identifier occurring twice in the log.
- `time.Time` values become natural numbers; durations are in seconds.
-/

namespace ChatRoom

/-! ### A small JSON value type, modelling the output of encoding/json. -/

inductive Json where
  | str (s : String)
  | num (n : Nat)
  | bool (b : Bool)
  | obj (fields : List (String × Json))
  | null

/-- Top-level object keys of a JSON value, in serialization order. -/
def Json.topKeys : Json → List String
  | .obj fields => fields.map Prod.fst
  | _ => []

/-! ### Data model of the connection layer (source: part_001). -/

/-- User as in part_001: `ID uuid.UUID` and `Name string`; the UUID is
modelled as a string. -/
structure User where
  id : String
  name : String
deriving Repr, DecidableEq

/-- OutgoingMessage as declared in part_001 lines 45-51: fields
MessageType, Message, Timestamp, User, AdditionalInfo with JSON tags
type, message, timestamp, user, additionalInfo. There is no ID field. -/
structure OutgoingMessage where
  messageType : String
  message : String
  timestamp : String
  user : User
  additionalInfo : List (String × Json)

/-- IncomingMessage as declared in part_001 lines 53-57. -/
structure IncomingMessage where
  messageType : String
  message : String
  additionalInfo : List (String × Json)

/-- Go encoding/json serializes struct fields in declaration order under
their tags; this is the object produced for a User. -/
def marshalUser (u : User) : Json :=
  .obj [("id", .str u.id), ("name", .str u.name)]

/-- Serialization of an OutgoingMessage, field for field in the order and
under the tags of the struct declaration in part_001. -/
def marshalOutgoingMessage (m : OutgoingMessage) : Json :=
  .obj [("type", .str m.messageType),
        ("message", .str m.message),
        ("timestamp", .str m.timestamp),
        ("user", marshalUser m.user),
        ("additionalInfo", .obj m.additionalInfo)]

/-- The payload built by the client read pump for each decoded inbound
message (part_001 lines 354-360): the incoming type, body and metadata are
copied, the server assigns `Timestamp: time.Now()` and the client user
snapshot. No message identifier is assigned. -/
def readPumpPayload (u : User) (now : String) (msg : IncomingMessage) : OutgoingMessage :=
  { messageType := msg.messageType
    message := msg.message
    timestamp := now
    user := u
    additionalInfo := msg.additionalInfo }

/-! ### The room engine (source: the room implementation embedded in
main_test.go, second part: Hub, Room, run, UpdateActivityNow,
disconnectAllClients, deleteRoomWithNoActivity). -/

/-- State of one client connection as seen by the room: the contents of
its buffered outbound queue (`send chan []byte`, capacity 256). -/
structure ClientState where
  sendQueue : List String
deriving Repr, DecidableEq

/-- Capacity of a client outbound queue: `make(chan []byte, 256)`. -/
def sendCap : Nat := 256

/-- State of a Room together with the observables the claims are about.
`clients` is the client set (with each client queue); `closeLog` records
every executed `close(c.send)`, in order; `closedClosed` records whether
`close(r.closed)` ran; `inHub` whether the hub map still holds the room. -/
structure RoomState where
  clients : List (Nat × ClientState)
  lastActivity : Nat
  shutdownClosed : Bool
  closedClosed : Bool
  inHub : Bool
  closeLog : List Nat
deriving Repr, DecidableEq

/-- Fan-out of one broadcast payload (the `case msg := <-r.broadcast`
body): each client with room in its queue gets the payload appended; a
client whose queue is full is deleted from the set and its send channel is
closed. Returns the new client list and the identifiers closed. -/
def fanOut (msg : String) : List (Nat × ClientState) → List (Nat × ClientState) × List Nat
  | [] => ([], [])
  | (cid, cs) :: rest =>
    let r := fanOut msg rest
    if cs.sendQueue.length < sendCap then
      ((cid, ⟨cs.sendQueue ++ [msg]⟩) :: r.1, r.2)
    else
      (r.1, cid :: r.2)

/-- The four select branches of the engine loop `run`. -/
inductive REvent where
  | shutdown
  | register (c : Nat)
  | unregister (c : Nat)
  | broadcast (msg : String)
deriving Repr, DecidableEq

/-- Result of one loop iteration: the new room state and whether the loop
returned (on return, the deferred `close(r.closed)` runs). -/
structure StepResult where
  state : RoomState
  exited : Bool
deriving Repr, DecidableEq

/-- One iteration of the engine loop `run`, for the event whose select
branch fired. `now` is the wall clock read by `UpdateActivityNow`.
- shutdown: return.
- register c: `r.clients[c] = true` (a fresh client is inserted; the key
  is never already present in a real execution).
- unregister c: if present, delete from the set and close its send; if the
  set became empty, `hub.DeleteRoom(r.id)` and return.
- broadcast msg: `r.UpdateActivityNow()`, then fan out with eviction. -/
def run_step (now : Nat) (s : RoomState) (e : REvent) : StepResult :=
  match e with
  | .shutdown => { state := { s with closedClosed := true }, exited := true }
  | .register c =>
    if (s.clients.lookup c).isSome then
      { state := s, exited := false }
    else
      { state := { s with clients := s.clients ++ [(c, ⟨[]⟩)] }, exited := false }
  | .unregister c =>
    match s.clients.lookup c with
    | some _ =>
      let remaining := s.clients.filter (fun p => p.1 != c)
      if remaining = [] then
        { state := { s with clients := remaining, closeLog := s.closeLog ++ [c], inHub := false, closedClosed := true }, exited := true }
      else
        { state := { s with clients := remaining, closeLog := s.closeLog ++ [c] }, exited := false }
    | none => { state := s, exited := false }
  | .broadcast msg =>
    let fo := fanOut msg s.clients
    { state := { s with lastActivity := now, clients := fo.1, closeLog := s.closeLog ++ fo.2 }, exited := false }

/-- Constant `roomTimeout = 1 * time.Hour`, in seconds. -/
def roomTimeout : Nat := 3600

/-- Constant `roomTimeoutInterval = 30 * time.Minute`, in seconds. -/
def roomTimeoutInterval : Nat := 1800

/-- Method `disconnectAllClients`: closes the send channel of every client
currently in the set. It does not remove the clients from the set. -/
def disconnectAllClients (s : RoomState) : RoomState :=
  { s with closeLog := s.closeLog ++ s.clients.map Prod.fst }

/-- One tick of the inactivity watcher `deleteRoomWithNoActivity`: sample
the elapsed time since `lastActivity` under the reader lock; if it exceeds
`roomTimeoutInterval`, close the shutdown channel, disconnect all clients
and delete the room from the hub, then return. `none` means the tick did
not fire the timeout path. -/
def watcherTick (timeSinceActivity : Nat) (s : RoomState) : Option RoomState :=
  if timeSinceActivity > roomTimeoutInterval then
    some { disconnectAllClients { s with shutdownClosed := true } with inHub := false }
  else
    none

/-! ### Interleavings of the engine and the watcher. -/

/-- An atomic action of either the engine task or the watcher task. The
engine may process any select branch whose producer is ready, including
after the shutdown channel was closed (a Go select with several ready
cases picks one of them nondeterministically). -/
inductive SysAction where
  | engine (now : Nat) (e : REvent)
  | watcher (timeSinceActivity : Nat)
deriving Repr

/-- Apply one atomic action. -/
def sysStep (s : RoomState) : SysAction → RoomState
  | .engine now e => (run_step now s e).state
  | .watcher t => (watcherTick t s).getD s

/-- Run a schedule of atomic actions. -/
def sysRun (s : RoomState) : List SysAction → RoomState
  | [] => s
  | a :: rest => sysRun (sysStep s a) rest

/-- Number of times `close` ran on the send channel of client `c`. -/
def closeCount (c : Nat) (s : RoomState) : Nat := s.closeLog.count c

/-- The engine events produced by a successful WebSocket join (wsHandler in
part_001): the system joined notice is handed to the broadcast channel
first, then the client is registered. Both channels are unbuffered, so the
engine processes the broadcast iteration strictly before the register
iteration. -/
def joinSequence (now1 now2 : Nat) (s : RoomState) (c : Nat) (b : String) : RoomState :=
  (run_step now2 (run_step now1 s (REvent.broadcast b)).state (REvent.register c)).state

/-! ### The hub room listing (GetAllRoomIDs, getAllRoomsHandler). -/

/-- A room as held in the hub map, restricted to what GetAllRoomIDs reads:
its id, its client set and its metadata. -/
structure HubRoomEntry where
  id : Nat
  clients : List Nat
  additionalInfo : List (String × Json)

/-- RoomResponse with JSON tags id, onlineUser, additionalInfo. -/
structure RoomResponse where
  id : Nat
  userCount : Nat
  additionalInfo : List (String × Json)

/-- Method `Hub.GetAllRoomIDs`: ranges over the rooms map and appends one
RoomResponse per room, in the order the map iteration yields the rooms.
Go map iteration order is unspecified, so the function takes that order as
input; no sorting is performed. -/
def GetAllRoomIDs (roomsInIterationOrder : List HubRoomEntry) : List RoomResponse :=
  roomsInIterationOrder.map fun r =>
    { id := r.id, userCount := r.clients.length, additionalInfo := r.additionalInfo }

/-! ### The read pump frame size limit (part_001 line 338). -/

/-- The read pump calls `c.conn.SetReadLimit(8192)`. -/
def readLimit : Nat := 8192

/-- Whether an inbound frame of `n` bytes passes the size check: the
websocket library fails any read whose message is larger than the
configured limit. -/
def frameAccepted (n : Nat) : Bool := n ≤ readLimit

/-! ### Message retention (Message Store).

The function `shouldStoreMessage` and the store step of the read pump are
called from part_001 style code and exercised by the tests embedded in
room.go (TestShouldStoreMessage and the StoreMessage tests), but their
defining file is not part of the sources; they are modelled from the
specification below. -/

/-- Modelled from the spec: `shouldStoreMessage`, whose defining file is
missing from the sources (only its test table is present). Persistable
types are exactly `system` and `message`; `image` and any other free-form
type are broadcast only. -/
def shouldStoreMessage (t : String) : Bool :=
  t == "system" || t == "message"

/-- Upper bound of the retention size window: 2 MiB. -/
def maxMessageStoreBytes : Nat := 2 * 1024 * 1024

/-- Outcome of one read pump iteration for one inbound message: whether it
was handed to the broadcast channel and whether a copy was appended to the
Message Store. -/
structure PumpOutcome where
  broadcasted : Bool
  storedInMessageStore : Bool
deriving Repr, DecidableEq

/-- Modelled from the spec: the retention step of the client read pump,
whose defining file is missing from the sources. Every decoded inbound
message is serialized and handed to the broadcast channel; if the
serialized length is strictly between 0 and 2 MiB and the message type is
persistable, a copy is stored via the Message Store. -/
def readPumpRetention (msgType : String) (serializedLen : Nat) : PumpOutcome :=
  { broadcasted := true
    storedInMessageStore :=
      if 0 < serializedLen ∧ serializedLen < maxMessageStoreBytes then
        shouldStoreMessage msgType
      else
        false }

/-! ### The build-info handler (info.go). -/

/-- Info as declared in info.go, with `time.Time` modelled as a natural
number whose zero value is 0. -/
structure Info where
  version : String
  gitCommit : String
  gitBranch : String
  gitRepository : String
  buildTime : Nat
deriving Repr, DecidableEq

/-- One write performed on the http.ResponseWriter: either an error
response (status code and message) or the JSON encoding of an Info value.
Encoding an Info value is injective, so the write carries the value. -/
inductive HttpWrite where
  | errorResp (status : Nat) (msg : String)
  | jsonBody (i : Info)
deriving Repr, DecidableEq

/-- Handler `getInfoHandler` of info.go. `parseResult` is the outcome of
the library call `time.Parse("2006-01-02T15:04:05Z", buildTime)` (some
parsed value, or none on error); `now` is the wall clock. On a parse
error the handler writes a 500 error response and then falls through,
still encoding the Info object with the zero BuildTime onto the same
response body. -/
def getInfoHandler (now : Nat) (parseResult : Option Nat)
    (version gitCommit gitBranch gitRepository buildTime : String) : List HttpWrite :=
  let bt : Nat × List HttpWrite :=
    if buildTime = "" ∨ buildTime = "unkown" ∨ buildTime = "now" then
      (now, [])
    else
      match parseResult with
      | some t => (t, [])
      | none => (0, [HttpWrite.errorResp 500 "can\x27t parse build time"])
  bt.2 ++ [HttpWrite.jsonBody
    { version := version, gitCommit := gitCommit, gitBranch := gitBranch,
      gitRepository := gitRepository, buildTime := bt.1 }]

/-! ### Concrete states used by witnesses and counterexamples. -/

/-- An empty freshly created room. -/
def rs0 : RoomState :=
  { clients := [], lastActivity := 0, shutdownClosed := false,
    closedClosed := false, inHub := true, closeLog := [] }

/-- A room holding exactly one client, number 1, with an empty queue. -/
def rs4 : RoomState := { rs0 with clients := [(1, ⟨[]⟩)] }

/-- A room holding exactly one client, number 7. -/
def rs5 : RoomState := { rs0 with clients := [(7, ⟨[]⟩)] }

/-- A room whose last activity was at time 5. -/
def rs6 : RoomState := { rs0 with lastActivity := 5 }

/-- A room with two clients, one of them with a buffered payload. -/
def rsTwo : RoomState := { rs0 with clients := [(1, ⟨[]⟩), (2, ⟨["m"]⟩)] }

/-- A room with one client that has one buffered payload. -/
def rs9 : RoomState := { rs0 with clients := [(1, ⟨["x"]⟩)] }

/-- A connected user snapshot. -/
def aliceUser : User :=
  { id := "9a6e58a5-4d47-4c86-8b3f-9ea373cbdb0c", name := "Alice" }

/-- A decoded inbound chat message. -/
def demoIncoming : IncomingMessage :=
  { messageType := "message", message := "hi", additionalInfo := [] }

/-- A hub map holding rooms 1 and 2, iterated in the order 2 then 1; Go
map iteration order is unspecified, so this is a possible iteration. -/
def hubIterationDemo : List HubRoomEntry :=
  [{ id := 2, clients := [], additionalInfo := [] },
   { id := 1, clients := [], additionalInfo := [] }]

/-! ### Helper lemmas on association lists and fan-out. -/

theorem lookup_append_of_none {β : Type} (c : Nat) (l1 l2 : List (Nat × β))
    (h : l1.lookup c = none) : (l1 ++ l2).lookup c = l2.lookup c := by
  induction l1 with
  | nil => simp
  | cons p t ih =>
    obtain ⟨k, v⟩ := p
    by_cases hk : c == k
    · simp [List.lookup, hk] at h
    · simp only [List.cons_append, List.lookup, hk] at h ⊢
      exact ih h

theorem lookup_append_of_some {β : Type} (c : Nat) (v : β) (l1 l2 : List (Nat × β))
    (h : l1.lookup c = some v) : (l1 ++ l2).lookup c = some v := by
  induction l1 with
  | nil => simp at h
  | cons p t ih =>
    obtain ⟨k, w⟩ := p
    by_cases hk : c == k
    · simp only [List.lookup, hk] at h
      simp only [List.cons_append, List.lookup, hk]
      exact h
    · simp only [List.cons_append, List.lookup, hk] at h ⊢
      exact ih h

theorem lookup_map_values (g : ClientState → ClientState) (c : Nat)
    (l : List (Nat × ClientState)) :
    (l.map fun p => (p.1, g p.2)).lookup c = (l.lookup c).map g := by
  induction l with
  | nil => rfl
  | cons p t ih =>
    obtain ⟨k, v⟩ := p
    by_cases hk : c == k
    · simp [List.lookup, hk]
    · simp only [List.map_cons, List.lookup, hk]
      exact ih

theorem fanOut_all_fit (msg : String) (l : List (Nat × ClientState))
    (h : ∀ p ∈ l, p.2.sendQueue.length < sendCap) :
    fanOut msg l = (l.map fun p => (p.1, ⟨p.2.sendQueue ++ [msg]⟩), []) := by
  induction l with
  | nil => rfl
  | cons p t ih =>
    obtain ⟨k, v⟩ := p
    have hk : v.sendQueue.length < sendCap := h (k, v) (List.mem_cons_self _ _)
    have ht : ∀ q ∈ t, q.2.sendQueue.length < sendCap :=
      fun q hq => h q (List.mem_cons_of_mem _ hq)
    simp [fanOut, hk, ih ht]

/-! ### Claim theorems. -/

/-- C1: for every inbound message processed by a client read pump, the
message is retained in the Message Store iff its type is system or message
and its serialized size is strictly between 0 bytes and 2 MiB; messages
outside this predicate are still broadcast but never retained. -/
theorem c1_persistence_predicate (t : String) (n : Nat) :
    (readPumpRetention t n).broadcasted = true ∧
    ((readPumpRetention t n).storedInMessageStore = true ↔
      ((t = "system" ∨ t = "message") ∧ 0 < n ∧ n < 2 * 1024 * 1024)) := by
  refine ⟨rfl, ?_⟩
  unfold readPumpRetention shouldStoreMessage maxMessageStoreBytes
  by_cases h : 0 < n ∧ n < 2 * 1024 * 1024
  · simp only [h, if_pos, and_true]
    constructor
    · intro hb
      rcases Bool.or_eq_true_iff.mp hb with hb | hb
      · exact Or.inl (by simpa using hb)
      · exact Or.inr (by simpa using hb)
    · intro hb
      rcases hb with hb | hb <;> simp [hb]
  · simp [h]

/-- C2 counterexample: at 2700 seconds of inactivity (45 minutes) the
watcher tick fires the timeout path although 2700 seconds does not exceed
a 3 hour threshold; the declared roomTimeout constant is not 3 hours. -/
theorem c2_fires_below_three_hours :
    (watcherTick 2700 rsTwo).isSome = true ∧ ¬ (2700 > 3 * 3600) ∧ roomTimeout ≠ 3 * 3600 := by
  decide

/-- C2 amended: the watcher tick signals shutdown, closes every client
outbound queue and removes the room from the hub exactly when the elapsed
time since lastActivity exceeds roomTimeoutInterval (30 minutes); the
roomTimeout constant (1 hour) is declared but not consulted. -/
theorem c2_watcher_threshold (e : Nat) (s : RoomState) :
    ((watcherTick e s).isSome ↔ roomTimeoutInterval < e) ∧
    (∀ s', watcherTick e s = some s' →
      s'.shutdownClosed = true ∧ s'.inHub = false ∧
      s'.closeLog = s.closeLog ++ s.clients.map Prod.fst ∧ s'.clients = s.clients) := by
  unfold watcherTick disconnectAllClients
  by_cases h : roomTimeoutInterval < e
  · simp [h]
  · simp [h]

/-- C2 witness: at 2000 seconds the watcher fires and the room is removed
from the hub with the shutdown channel closed. -/
theorem c2_watcher_threshold_w :
    (watcherTick 2000 rsTwo).isSome = true ∧
    ∀ s', watcherTick 2000 rsTwo = some s' → s'.shutdownClosed = true ∧ s'.inHub = false := by
  have h := c2_watcher_threshold 2000 rsTwo
  refine ⟨h.1.mpr (by decide), fun s' hs' => ⟨(h.2 s' hs').1, (h.2 s' hs').2.1⟩⟩

/-- C8 counterexample: an inbound frame of 10000 bytes is at most 10 MiB
but fails the configured size check, because the read pump sets the limit
to 8192 bytes, not 10 MiB. -/
theorem c8_ten_mib_frame_rejected :
    frameAccepted 10000 = false ∧ 10000 ≤ 10 * 1024 * 1024 ∧ readLimit ≠ 10 * 1024 * 1024 := by
  decide

/-- C8 amended: the read pump configures the socket maximum inbound frame
size to 8192 bytes, so any inbound frame of size at most 8192 bytes is
accepted by the size check. -/
theorem c8_frames_within_limit_accepted (n : Nat) (h : n ≤ readLimit) :
    frameAccepted n = true := by
  unfold frameAccepted
  exact decide_eq_true h

/-- C8 witness: a 4096-byte frame is within the limit and accepted. -/
theorem c8_frames_within_limit_accepted_w :
    4096 ≤ readLimit ∧ frameAccepted 4096 = true :=
  ⟨by decide, c8_frames_within_limit_accepted 4096 (by decide)⟩

/-- C10: if the compiled-in buildTime string is non-empty, not "unkown"
and not "now", and time.Parse fails on it, then getInfoHandler writes a
500 error response and then still appends the JSON-encoded Info object
with a zero BuildTime to the same response body instead of returning
early. -/
theorem c10_info_error_then_body (now : Nat) (v c b r bt : String)
    (h1 : bt ≠ "") (h2 : bt ≠ "unkown") (h3 : bt ≠ "now") :
    getInfoHandler now none v c b r bt =
      [HttpWrite.errorResp 500 "can\x27t parse build time",
       HttpWrite.jsonBody { version := v, gitCommit := c, gitBranch := b,
                            gitRepository := r, buildTime := 0 }] := by
  simp [getInfoHandler, h1, h2, h3]

/-- C10 witness at the linker default buildTime value "unknown", which the
handler does not special-case (it only special-cases the misspelling
"unkown") and which time.Parse rejects. -/
theorem c10_info_error_then_body_w :
    getInfoHandler 42 none "v1.0.0" "abc123" "main" "repo" "unknown" =
      [HttpWrite.errorResp 500 "can\x27t parse build time",
       HttpWrite.jsonBody { version := "v1.0.0", gitCommit := "abc123", gitBranch := "main",
                            gitRepository := "repo", buildTime := 0 }] :=
  c10_info_error_then_body 42 "v1.0.0" "abc123" "main" "repo" "unknown"
    (by decide) (by decide) (by decide)

/-- C3: the payload the read pump serializes for broadcast carries the
server-assigned timestamp but no message identifier at all: the serialized
object has exactly the keys type, message, timestamp, user and
additionalInfo, and in particular no id field. -/
theorem c3_serialized_payload_has_no_id :
    (marshalOutgoingMessage (readPumpPayload aliceUser "2024-04-09T12:35:10Z" demoIncoming)).topKeys
        = ["type", "message", "timestamp", "user", "additionalInfo"] ∧
    "id" ∉ (marshalOutgoingMessage (readPumpPayload aliceUser "2024-04-09T12:35:10Z" demoIncoming)).topKeys ∧
    "timestamp" ∈ (marshalOutgoingMessage (readPumpPayload aliceUser "2024-04-09T12:35:10Z" demoIncoming)).topKeys := by
  refine ⟨rfl, by decide, by decide⟩

/-- C4: an interleaving in which the watcher fires the timeout path
(closing every client send channel without removing the clients from the
set) and the engine then processes a pending unregister for client 1
executes close on the same send channel twice; in Go the second close
panics. -/
theorem c4_double_close_interleaving :
    closeCount 1 rs4 = 0 ∧
    closeCount 1 (sysRun rs4 [SysAction.watcher 9999, SysAction.engine 0 (REvent.unregister 1)]) = 2 := by
  decide

/-- C5 counterexample: from a room holding exactly one client, processing
the unregister event for that client makes the loop return although the
event is not the shutdown signal. -/
theorem c5_unregister_exits_loop :
    (run_step 0 rs5 (REvent.unregister 7)).exited = true ∧
    REvent.unregister 7 ≠ REvent.shutdown := by
  decide

/-- C5 amended: one iteration of the engine loop returns exactly when the
event is the shutdown signal, or when it is an unregister of a present
client whose removal empties the client set (the room is then also deleted
from the hub); in either case the deferred close of the closed channel
runs. Register and broadcast events never cause an exit. -/
theorem c5_run_exit_condition (now : Nat) (s : RoomState) (e : REvent) :
    ((run_step now s e).exited = true ↔
      (e = REvent.shutdown ∨
        ∃ c, e = REvent.unregister c ∧ (s.clients.lookup c).isSome ∧
          s.clients.filter (fun p => p.1 != c) = [])) ∧
    ((run_step now s e).exited = true → (run_step now s e).state.closedClosed = true) := by
  cases e with
  | shutdown => simp [run_step]
  | register c =>
    by_cases h : (s.clients.lookup c).isSome <;> simp [run_step, h]
  | unregister c =>
    by_cases h1 : (s.clients.lookup c).isSome
    · by_cases h2 : s.clients.filter (fun p => p.1 != c) = []
      · have hex : (run_step now s (REvent.unregister c)).exited = true := by
          cases hl : s.clients.lookup c with
          | none => rw [hl] at h1; simp at h1
          | some v => simp [run_step, hl, h2]
        have hcc : (run_step now s (REvent.unregister c)).state.closedClosed = true := by
          cases hl : s.clients.lookup c with
          | none => rw [hl] at h1; simp at h1
          | some v => simp [run_step, hl, h2]
        exact ⟨⟨fun _ => Or.inr ⟨c, rfl, h1, h2⟩, fun _ => hex⟩, fun _ => hcc⟩
      · have hex : (run_step now s (REvent.unregister c)).exited = false := by
          cases hl : s.clients.lookup c with
          | none => simp [run_step, hl]
          | some v => simp [run_step, hl, h2]
        refine ⟨⟨fun h' => ?_, fun h' => ?_⟩, fun h' => ?_⟩
        · rw [hex] at h'; cases h'
        · exfalso
          rcases h' with h' | ⟨c', hce, _, hf⟩
          · exact REvent.noConfusion h'
          · injection hce with h3; subst h3; exact h2 hf
        · rw [hex] at h'; cases h'
    · have hex : (run_step now s (REvent.unregister c)).exited = false := by
        cases hl : s.clients.lookup c with
        | none => simp [run_step, hl]
        | some v => rw [hl] at h1; simp at h1
      refine ⟨⟨fun h' => ?_, fun h' => ?_⟩, fun h' => ?_⟩
      · rw [hex] at h'; cases h'
      · exfalso
        rcases h' with h' | ⟨c', hce, hl, _⟩
        · exact REvent.noConfusion h'
        · injection hce with h3; subst h3; exact h1 hl
      · rw [hex] at h'; cases h'
  | broadcast m => simp [run_step]

/-- C5 witness: the shutdown event makes the loop exit. -/
theorem c5_run_exit_condition_w :
    (run_step 0 rs0 REvent.shutdown).exited = true :=
  (c5_run_exit_condition 0 rs0 REvent.shutdown).1.mpr (Or.inl rfl)

/-- C6 counterexample: at wall-clock time 100, registering client 3 in a
room whose last activity was at time 5 adds the client but leaves
lastActivity at 5 instead of advancing it to 100. -/
theorem c6_register_leaves_lastActivity :
    ((run_step 100 rs6 (REvent.register 3)).state.clients.lookup 3).isSome = true ∧
    (run_step 100 rs6 (REvent.register 3)).state.lastActivity = 5 ∧ (5 : Nat) ≠ 100 := by
  decide

/-- C6 amended: handling a register event adds the client to the set and
does not exit the loop, but leaves lastActivity unchanged; lastActivity is
advanced by broadcast handling (and set at room creation), not by
register. -/
theorem c6_register_adds_client_only (now : Nat) (s : RoomState) (c : Nat) :
    ((run_step now s (REvent.register c)).state.clients.lookup c).isSome = true ∧
    (run_step now s (REvent.register c)).state.lastActivity = s.lastActivity ∧
    (run_step now s (REvent.register c)).exited = false := by
  by_cases h : (s.clients.lookup c).isSome
  · exact ⟨by simp [run_step, h], by simp [run_step, h], by simp [run_step, h]⟩
  · refine ⟨?_, by simp [run_step, h], by simp [run_step, h]⟩
    have hnone : s.clients.lookup c = none := Option.not_isSome_iff_eq_none.mp h
    simp only [run_step, h, Bool.false_eq_true, if_false]
    rw [lookup_append_of_none c s.clients [(c, ⟨[]⟩)] hnone]
    simp [List.lookup]

/-- C7: with rooms 1 and 2 in the hub and a map iteration that yields room
2 first, GetAllRoomIDs returns the rooms in the order 2, 1, which is not
sorted in ascending order of room id; the listing performs no sort. -/
theorem c7_listing_follows_iteration_order :
    (GetAllRoomIDs hubIterationDemo).map RoomResponse.id = [2, 1] ∧
    ¬ List.Chain' (· < ·) ((GetAllRoomIDs hubIterationDemo).map RoomResponse.id) := by
  refine ⟨rfl, ?_⟩
  rw [show (GetAllRoomIDs hubIterationDemo).map RoomResponse.id = [2, 1] from rfl]
  simp [List.chain'_cons]

/-- C9: on a successful WebSocket join, the system joined notice is handed
to the broadcast channel before the joining client is registered, so after
the engine processes both events the joining client holds an empty queue
(it never receives its own join notice) while every previously registered
client whose queue had room receives the notice. -/
theorem c9_join_notice_skips_joiner (now1 now2 : Nat) (s : RoomState) (c : Nat) (b : String)
    (hc : s.clients.lookup c = none)
    (hq : ∀ p ∈ s.clients, p.2.sendQueue.length < sendCap) :
    (joinSequence now1 now2 s c b).clients.lookup c = some ⟨[]⟩ ∧
    (∀ cid cs, s.clients.lookup cid = some cs →
      (joinSequence now1 now2 s c b).clients.lookup cid = some ⟨cs.sendQueue ++ [b]⟩) := by
  unfold joinSequence
  have hfan := fanOut_all_fit b s.clients hq
  have hs1 : (run_step now1 s (REvent.broadcast b)).state =
      { s with lastActivity := now1,
               clients := s.clients.map fun p => (p.1, ⟨p.2.sendQueue ++ [b]⟩) } := by
    simp [run_step, hfan]
  rw [hs1]
  have hlc : ((s.clients.map fun p => (p.1, ⟨p.2.sendQueue ++ [b]⟩)) :
      List (Nat × ClientState)).lookup c = none := by
    rw [lookup_map_values (fun cs => ⟨cs.sendQueue ++ [b]⟩) c s.clients, hc]
    rfl
  constructor
  · simp only [run_step, hlc, Option.isSome_none, Bool.false_eq_true, if_false]
    rw [lookup_append_of_none c _ [(c, ⟨[]⟩)] hlc]
    simp [List.lookup]
  · intro cid cs hcs
    have hmapped : ((s.clients.map fun p => (p.1, ⟨p.2.sendQueue ++ [b]⟩)) :
        List (Nat × ClientState)).lookup cid = some ⟨cs.sendQueue ++ [b]⟩ := by
      rw [lookup_map_values (fun x => ⟨x.sendQueue ++ [b]⟩) cid s.clients, hcs]
      rfl
    simp only [run_step, hlc, Option.isSome_none, Bool.false_eq_true, if_false]
    exact lookup_append_of_some cid _ _ [(c, ⟨[]⟩)] hmapped

/-- C9 witness: client 2 joins a room whose only member is client 1 with
one buffered payload; after the join notice and the registration, client 2
holds an empty queue and client 1 received the notice. -/
theorem c9_join_notice_skips_joiner_w :
    (joinSequence 0 1 rs9 2 "hello").clients.lookup 2 = some ⟨[]⟩ ∧
    (joinSequence 0 1 rs9 2 "hello").clients.lookup 1 = some ⟨["x", "hello"]⟩ := by
  have h := c9_join_notice_skips_joiner 0 1 rs9 2 "hello" (by decide)
    (by intro p hp; fin_cases hp; decide)
  exact ⟨h.1, h.2 1 ⟨["x"]⟩ (by decide)⟩

end ChatRoom
